import Mathlib

/-!
Verification of the CLIgen variable-vector (`cligen_cvec.c`) and grammar
serializer (`cligen_print.c`) core.

The embedding follows the C source.  A cvec's logical content is its
element sequence, modelled as a `List CgVar`; allocation is assumed to
succeed except where the source itself branches on a failure (the copy
step of `cvec_append_var`, whose failure is passed in explicitly).
A pointer to a cvec slot is modelled by its offset from the start of the
vector's storage: the pointer aliases slot `i` exactly when the offset
is `i`.  String buffers (`cbuf`) are append only, so every printing
function is modelled as the string it appends.
-/

/-- Variable type tags (`enum cv_type`).  Modelled from the spec: the
enumeration lives in the external collaborator `cligen_cv.h`; this core
treats it opaquely except for the is-string / is-integer predicates and
the `CGV_EMPTY` sentinel, so a representative closed subset is used. -/
inductive CvType : Type where
  | CGV_ERR
  | CGV_INT8
  | CGV_INT32
  | CGV_UINT64
  | CGV_BOOL
  | CGV_STRING
  | CGV_REST
  | CGV_EMPTY
deriving DecidableEq

/-- One cligen variable record (`cg_var`).  The payload is kept abstractly
as its printable form (`var_valstr`, what `cv2cbuf`/`cv2str_dup` emit) and
its string payload (`var_strval`, what `cv_string_get` returns), both
external-collaborator concerns per the spec's data model. -/
structure CgVar : Type where
  var_name : Option String
  var_type : CvType
  var_strval : Option String
  var_valstr : String
  var_const : Bool
deriving DecidableEq

/-- Accessor `cv_type_get`. -/
def cv_type_get (cv : CgVar) : CvType := cv.var_type

/-- A zeroed `cg_var` of the given type: `memset(cv, 0, sizeof(*cv));
cv->var_type = type;` in `cvec_add`. -/
def cv_zero (t : CvType) : CgVar :=
  ⟨none, t, none, "", false⟩

/-- Function `cvec_len`: the logical length of the vector (`vr_len`). -/
def cvec_len (v : List CgVar) : Nat := v.length

/-- Function `cvec_add`: grow by one zero-initialized element of the given type and
return (new contents, slot index of the new element).  The C function
returns a pointer to the new last slot, i.e. offset `old length`; the
realloc is assumed to succeed. -/
def cvec_add (v : List CgVar) (t : CvType) : List CgVar × Nat :=
  (v ++ [cv_zero t], v.length)

/-- Function `cvec_del`: delete the slot aliased by pointer offset `j` (the linear
`cvec_each` scan compares the pointer against each slot in turn, so it
finds index `j` exactly when `0 <= j < len`).  Returns (new contents,
returned length).  The `memmove` of the suffix together with the final
shrinking realloc leave exactly the other elements, in order, which is
`List.eraseIdx`; the shrink realloc is logically content-preserving. -/
def cvec_del (v : List CgVar) (j : Int) : List CgVar × Nat :=
  if v.length = 0 then (v, 0)
  else if 0 ≤ j ∧ j < (v.length : Int) then (v.eraseIdx j.toNat, v.length - 1)
  else (v, v.length)

/-- Function `cvec_del_i`: delete by index.  The guard is a literal transcription
of `if (cvec_len(cvv) == 0 || cvec_len(cvv) < i) return 0;`.  Past the
guard, an index outside `0 <= i < len` makes the C `memmove` size
`(vr_len - i - 1) * sizeof(..)` wrap around as `size_t`, which is
undefined behaviour, modelled as `none`.  For an in-range index the
move-and-decrement is `List.eraseIdx` and the function returns the
decremented length. -/
def cvec_del_i (v : List CgVar) (i : Int) : Option (List CgVar × Int) :=
  if v.length = 0 ∨ (v.length : Int) < i then some (v, 0)
  else if 0 ≤ i ∧ i < (v.length : Int) then
    some (v.eraseIdx i.toNat, (v.length : Int) - 1)
  else none

/-- Function `cvec_append_var`: append a copy of `cv`.  `cv_cp` is external
(`cligen_cv.c`); it deep-copies the record, so a successful copy makes the
new slot value-equal to `cv`, and its only failure mode is allocation
failure, passed in here as `cp_fails`.  On failure the code rolls back
with `cvec_del(cvv, tail)` where `tail` is the pointer returned by
`cvec_add`, i.e. offset `old length`.  Returns (contents, tail slot index
or `none` for the NULL failure result). -/
def cvec_append_var (v : List CgVar) (cv : CgVar) (cp_fails : Bool) :
    List CgVar × Option Nat :=
  let va := (cvec_add v (cv_type_get cv)).1
  let tail := (cvec_add v (cv_type_get cv)).2
  if cp_fails then ((cvec_del va (tail : Int)).1, none)
  else (va.set tail cv, some tail)

/-- Erasing the freshly appended last slot restores the original list. -/
theorem eraseIdx_append_last (v : List CgVar) (z : CgVar) :
    (v ++ [z]).eraseIdx v.length = v := by
  induction v with
  | nil => rfl
  | cons a tl ih => simp [List.eraseIdx, ih]

/-- C5: if the deep copy inside `cvec_append_var` fails, the just-appended
slot is deleted again: the vector comes back with exactly its original
element sequence (hence its original length) and the call reports failure
(a NULL tail). -/
theorem c5_append_copy_rollback (v : List CgVar) (cv : CgVar) :
    cvec_append_var v cv true = (v, none) := by
  have hlen : (v ++ [cv_zero (cv_type_get cv)]).length = v.length + 1 := by
    simp
  simp only [cvec_append_var, cvec_add, if_pos]
  rw [cvec_del]
  rw [hlen]
  have h1 : ¬ (v.length + 1 = 0) := by omega
  have h2 : 0 ≤ (v.length : Int) ∧ (v.length : Int) < ((v.length + 1 : Nat) : Int) := by
    constructor
    · exact Int.ofNat_nonneg v.length
    · push_cast
      omega
  rw [if_neg h1, if_pos h2]
  simp [Int.toNat_ofNat, eraseIdx_append_last]

/-- C6: `cvec_del` on an empty vector is a no-op returning 0; when the
pointer aliases no current slot it removes nothing and returns the current
length; and that return value collides with the one produced by a
successful removal of the last element (here: not-found on a one-element
vector and removal of the last slot of a two-element vector both return 1,
so the caller cannot tell the outcomes apart from the return value). -/
theorem c6_del_not_found :
    (∀ j : Int, cvec_del ([] : List CgVar) j = ([], 0))
    ∧ (∀ (v : List CgVar) (j : Int), (j < 0 ∨ (v.length : Int) ≤ j) →
        cvec_del v j = (v, v.length))
    ∧ ((cvec_del [cv_zero CvType.CGV_INT8, cv_zero CvType.CGV_INT32] 1).2 = 1
        ∧ (cvec_del [cv_zero CvType.CGV_INT8] 5).2 = 1
        ∧ cvec_del [cv_zero CvType.CGV_INT8, cv_zero CvType.CGV_INT32] 1
            = ([cv_zero CvType.CGV_INT8], 1)
        ∧ cvec_del [cv_zero CvType.CGV_INT8] 5 = ([cv_zero CvType.CGV_INT8], 1)) := by
  refine ⟨?_, ?_, ?_⟩
  · intro j
    simp [cvec_del]
  · intro v j h
    rcases Nat.eq_zero_or_pos v.length with h0 | h0
    · rw [cvec_del, if_pos h0]
      have : v = [] := List.length_eq_zero.mp h0
      simp [this]
    · rw [cvec_del, if_neg (by omega)]
      rw [if_neg]
      rintro ⟨hj0, hjl⟩
      rcases h with h | h <;> omega
  · refine ⟨by decide, by decide, by decide, by decide⟩

/-- C6 witness at a concrete not-found call. -/
theorem c6_del_not_found_witness :
    cvec_del [cv_zero CvType.CGV_INT8] 5 = ([cv_zero CvType.CGV_INT8], 1) := by
  have h := (c6_del_not_found.2.1) [cv_zero CvType.CGV_INT8] 5 (by decide)
  simpa using h

/-- C7: a successful `cvec_add` makes `cvec_len` exactly one larger, and
`cvec_del_i` at a valid index makes it exactly one smaller (and returns
the decremented length). -/
theorem c7_length_changes (v : List CgVar) (t : CvType) (i : Int)
    (h0 : 0 ≤ i) (h1 : i < (v.length : Int)) :
    cvec_len (cvec_add v t).1 = cvec_len v + 1
    ∧ ∃ v', cvec_del_i v i = some (v', (v.length : Int) - 1)
        ∧ cvec_len v' = cvec_len v - 1 := by
  constructor
  · simp [cvec_add, cvec_len]
  · refine ⟨v.eraseIdx i.toNat, ?_, ?_⟩
    · rw [cvec_del_i, if_neg (by omega), if_pos ⟨h0, h1⟩]
    · have hi : i.toNat < v.length := by omega
      simp [cvec_len, List.length_eraseIdx, hi]

/-- C7 witness at a concrete one-element vector and index 0. -/
theorem c7_length_changes_witness :
    cvec_len (cvec_add [cv_zero CvType.CGV_INT32] CvType.CGV_STRING).1
      = cvec_len [cv_zero CvType.CGV_INT32] + 1
    ∧ ∃ v', cvec_del_i [cv_zero CvType.CGV_INT32] 0
        = some (v', (([cv_zero CvType.CGV_INT32].length : Nat) : Int) - 1)
        ∧ cvec_len v' = cvec_len [cv_zero CvType.CGV_INT32] - 1 :=
  c7_length_changes [cv_zero CvType.CGV_INT32] CvType.CGV_STRING 0
    (by decide) (by decide)

/-- C9: `cvec_del_i` leaves the vector unchanged and returns 0 exactly
when the vector is empty or the index strictly exceeds the length; in
particular the bound check accepts `i = len` on a non-empty vector, and
the call then reaches the shift-and-shrink code with an out-of-range
index (the undefined-behaviour case, `none` in the model). -/
theorem c9_del_i_bound_check :
    (∀ (v : List CgVar) (i : Int),
        cvec_del_i v i = some (v, 0) ↔ (v = [] ∨ (v.length : Int) < i))
    ∧ (∀ v : List CgVar, v ≠ [] →
        cvec_del_i v (v.length : Int) = none) := by
  constructor
  · intro v i
    constructor
    · intro h
      by_contra hc
      push_neg at hc
      obtain ⟨hne, hle⟩ := hc
      have hlen : v.length ≠ 0 := by
        intro h0
        exact hne (List.length_eq_zero.mp h0)
      rw [cvec_del_i, if_neg (by omega)] at h
      by_cases hin : 0 ≤ i ∧ i < (v.length : Int)
      · rw [if_pos hin] at h
        have hlt : i.toNat < v.length := by omega
        have := congrArg (fun p => (Prod.fst p).length) (Option.some.inj h)
        simp only at this
        rw [List.length_eraseIdx, if_pos hlt] at this
        omega
      · rw [if_neg hin] at h
        exact Option.noConfusion h
    · intro h
      rcases h with h | h
      · subst h
        simp [cvec_del_i]
      · rw [cvec_del_i, if_pos (Or.inr h)]
  · intro v hv
    have hlen : v.length ≠ 0 := by
      intro h0
      exact hv (List.length_eq_zero.mp h0)
    rw [cvec_del_i, if_neg (by omega), if_neg (by omega)]

/-- C9 witness: the characterisation at a concrete in-range call (both
directions of the iff falsified/validated by computation) and the
out-of-range `i = len` call on a concrete non-empty vector. -/
theorem c9_del_i_bound_check_witness :
    (cvec_del_i [cv_zero CvType.CGV_INT8] 2 = some ([cv_zero CvType.CGV_INT8], 0))
    ∧ cvec_del_i [cv_zero CvType.CGV_INT8] 1 = none := by
  constructor
  · exact (c9_del_i_bound_check.1 [cv_zero CvType.CGV_INT8] 2).mpr
      (Or.inr (by decide))
  · have h := c9_del_i_bound_check.2 [cv_zero CvType.CGV_INT8] (by decide)
    simpa using h

/-! ## Grammar tree serializer (`cligen_print.c`) -/

/-- Node kinds (`enum cg_objtype`). -/
inductive CoType : Type where
  | CO_COMMAND
  | CO_REFERENCE
  | CO_VARIABLE
  | CO_EMPTY
deriving DecidableEq

/-- One callback record (`struct cg_callback`): function name and argument
vector, both possibly NULL.  The C list is a singly linked `cc_next`
chain, modelled as a `List`. -/
structure Callback : Type where
  cc_fn_str : Option String
  cc_cvec : Option (List CgVar)
deriving DecidableEq

/-- The non-recursive fields of a `cg_obj`.  `co_ranges` pairs the
`co_rangecvv_low` and `co_rangecvv_upp` cvecs index-wise; the external
grammar compiler keeps those two cvecs at the common length
`co_rangelen`, so slot `i` of each is the pair `co_ranges[i]` and
`co_rangelen = co_ranges.length`.  The flag bits behind the external
accessors `co_flags_get(co, CO_FLAGS_HIDE)`, `co_flags_get(co,
CO_FLAGS_HIDE_DATABASE)`, `co_terminal(co)` and `co_sets_get(co)` are
modelled as the booleans they test. -/
structure CoData : Type where
  co_type : CoType
  co_command : Option String
  co_choice : Option String
  co_show : Option String
  co_vtype : CvType
  co_ranges : List (CgVar × CgVar)
  co_expand_fn_str : Option String
  co_expand_fn_vec : Option (List CgVar)
  co_regex : Option (List CgVar)
  co_translate_fn_str : Option String
  co_helpvec : Option (List CgVar)
  co_flags_hide : Bool
  co_flags_hide_database : Bool
  co_callbacks : List Callback
  co_terminal : Bool
  co_sets : Bool

mutual
/-- A grammar node (`cg_obj`): its scalar data plus its child parse tree
(`co_pt_get`, possibly a NULL pointer). -/
inductive CgObj : Type where
  | mk (d : CoData) (pt : PtOpt) : CgObj
/-- A possibly-NULL `parse_tree *`. -/
inductive PtOpt : Type where
  | null : PtOpt
  | pt (t : ParseTree) : PtOpt
/-- A parse tree (`parse_tree`): optional name and the sibling vector. -/
inductive ParseTree : Type where
  | mk (name : Option String) (vec : PtVec) : ParseTree
/-- The `pt_vec` array of sibling slots. -/
inductive PtVec : Type where
  | nil : PtVec
  | cons (hd : CoSlot) (tl : PtVec) : PtVec
/-- One slot of a `pt_vec`: a possibly-NULL `cg_obj *`. -/
inductive CoSlot : Type where
  | null : CoSlot
  | obj (co : CgObj) : CoSlot
end

/-- The node's kind tag (`co->co_type`). -/
def coType : CgObj → CoType
  | .mk d _ => d.co_type

/-- Number of slots in a sibling vector (`pt->pt_len`). -/
def ptVecLen : PtVec → Nat
  | .nil => 0
  | .cons _ tl => ptVecLen tl + 1

/-- Modelled from the spec: the external accessor `pt_len_get`
(`cligen_parsetree.c`) yields the sibling count, 0 for a NULL tree. -/
def pt_len_get : PtOpt → Nat
  | .null => 0
  | .pt (.mk _ vec) => ptVecLen vec

/-- Modelled from the spec: the external accessor `pt_vec_i_get` yields
slot `i` of the sibling vector; only called in range by this core. -/
def ptVecGet : PtVec → Nat → CoSlot
  | .nil, _ => .null
  | .cons h _, 0 => h
  | .cons _ tl, Nat.succ n => ptVecGet tl n

/-- Modelled from the spec: the external accessor `pt_name_get`. -/
def pt_name_get : ParseTree → Option String
  | .mk name _ => name

/-- The sibling slots as a plain list (specification-side view). -/
def ptVecList : PtVec → List CoSlot
  | .nil => []
  | .cons h tl => h :: ptVecList tl

/-- Slot 0 of a node's child tree (NULL for a NULL or empty tree). -/
def firstSlot : PtOpt → CoSlot
  | .null => .null
  | .pt (.mk _ vec) => ptVecGet vec 0

/-- The single-child condition of `co2cbuf`, line 216:
`pt_len_get(pt)==1 && (co1 = pt_vec_i_get(pt, 0)) != NULL &&
co1->co_type != CO_EMPTY`. -/
def ptSingleNonEmpty (p : PtOpt) : Bool :=
  pt_len_get p == 1 &&
    (match firstSlot p with
     | .null => false
     | .obj c => !(coType c == .CO_EMPTY))

/-- The printf-style `%s` conversion: a NULL argument is undefined behaviour in C
(glibc renders `(null)`); no claim exercises that case. -/
def pcts : Option String → String
  | some s => s
  | none => "(null)"

/-- Format `%*s` with an empty string: `n` spaces. -/
def spaces (n : Nat) : String := String.mk (List.replicate n ' ')

/-- Concatenation of a list of emitted fragments (a C loop of appends). -/
def concatAll : List String → String
  | [] => ""
  | s :: tl => s ++ concatAll tl

/-- The `if (i++) sep` idiom: separator before every fragment but the
first. -/
def joinSep (sep : String) : List String → String
  | [] => ""
  | [s] => s
  | s :: tl => s ++ sep ++ joinSep sep tl

/-- The test `strchr(s, '|') != NULL`: the choice text contains a pipe. -/
def hasPipe (s : String) : Bool := s.data.contains '|'

/-- Modelled from the spec: the external `cv2cbuf` / `cv2str_dup`
(`cligen_cv.c`) append the string form of the variable's value. -/
def cv2cbuf (cv : CgVar) : String := cv.var_valstr

/-- Modelled from the spec: the external `cv_string_get` returns the
string payload of a string-valued variable. -/
def cv_string_get (cv : CgVar) : Option String := cv.var_strval

/-- Modelled from the spec: the external `cv_isint` predicate — true
exactly for the integer-width types. -/
def cv_isint : CvType → Bool
  | .CGV_INT8 => true
  | .CGV_INT32 => true
  | .CGV_UINT64 => true
  | _ => false

/-- Modelled from the spec: the external `cv_type2str` name of a type. -/
def cv_type2str : CvType → String
  | .CGV_ERR => "err"
  | .CGV_INT8 => "int8"
  | .CGV_INT32 => "int32"
  | .CGV_UINT64 => "uint64"
  | .CGV_BOOL => "bool"
  | .CGV_STRING => "string"
  | .CGV_REST => "rest"
  | .CGV_EMPTY => "empty"

/-- Function `cvec2cbuf` (`cligen_cvec.c`): one `"%d : %s = %s\n"` line per
element, with a running counter. -/
def cvec2cbufGo (i : Nat) : List CgVar → String
  | [] => ""
  | cv :: tl =>
    toString i ++ " : " ++ pcts cv.var_name ++ " = " ++ cv2cbuf cv ++ "\n"
      ++ cvec2cbufGo (i + 1) tl

/-- Entry point of `cvec2cbuf`. -/
def cvec2cbufStr (l : List CgVar) : String := cvec2cbufGo 0 l

/-- One iteration of the range loop of `cov2cbuf`, lines 105-118:
`" range["` for integer variable types, `" length["` otherwise, then the
low bound and `":"` unless the low bound carries the `CGV_EMPTY`
sentinel type, then the high bound and `"]"`. -/
def rangePairStr (vt : CvType) (p : CgVar × CgVar) : String :=
  (if cv_isint vt then " range[" else " length[")
    ++ (if cv_type_get p.1 ≠ CvType.CGV_EMPTY then cv2cbuf p.1 ++ ":" else "")
    ++ cv2cbuf p.2 ++ "]"

/-- The `for (i=0; i<co->co_rangelen; i++)` loop of `cov2cbuf`. -/
def rangesStr (vt : CvType) : List (CgVar × CgVar) → String
  | [] => ""
  | p :: tl => rangePairStr vt p ++ rangesStr vt tl

/-- The regex loop of `cov2cbuf`, lines 128-130: one
`" regexp:\"...\""` per entry of the (possibly NULL) `co_regex` cvec. -/
def regexesStr : Option (List CgVar) → String
  | none => ""
  | some l => concatAll (l.map (fun cv => " regexp:\"" ++ pcts (cv_string_get cv) ++ "\""))

/-- The tail of `cov2cbuf`'s full mode, lines 120-133: the optional
`show:"..."` clause, the optional `expandfn("args")` clause, the regexp
clauses, the optional `translate:fn()` clause, and the closing `>`. -/
def covTailStr (d : CoData) : String :=
  (match d.co_show with | none => "" | some s => " show:\"" ++ s ++ "\"")
    ++ (match d.co_expand_fn_str with
        | none => ""
        | some fs => " " ++ fs ++ "(\""
            ++ (match d.co_expand_fn_vec with
                | none => ""
                | some l => cvec2cbufStr l)
            ++ "\")")
    ++ regexesStr d.co_regex
    ++ (match d.co_translate_fn_str with
        | none => ""
        | some ts => " translate:" ++ ts ++ "()")
    ++ ">"

/-- Function `cov2cbuf`, lines 80-140: the variable-syntax rendering.  A non-NULL
`co_choice` short-circuits everything; otherwise brief mode prints
`<show-or-command>` and full mode prints name, type, ranges and the
detail tail between `<` and `>`. -/
def cov2cbuf (d : CoData) (brief : Bool) : String :=
  match d.co_choice with
  | some ch => if hasPipe ch then "(" ++ ch ++ ")" else ch
  | none =>
    if brief then
      "<" ++ pcts (match d.co_show with | some s => some s | none => d.co_command) ++ ">"
    else
      "<" ++ pcts d.co_command ++ ":" ++ cv_type2str d.co_vtype
        ++ rangesStr d.co_vtype d.co_ranges
        ++ covTailStr d

/-- One iteration of the callback loop of `co2cbuf`, lines 191-205. -/
def callbackStr (cc : Callback) : String :=
  match cc.cc_fn_str with
  | none => ""
  | some fn => ", " ++ fn ++ "("
      ++ (match cc.cc_cvec with
          | none => ""
          | some l => joinSep "," (l.map cv2cbuf))
      ++ ")"

/-- The `brief == 0` block of `co2cbuf`, lines 173-206: quoted help
lines, the hide-flag annotations and the callback annotations. -/
def coDetail (d : CoData) : String :=
  (match d.co_helpvec with
   | none => ""
   | some hv => "(\"" ++ joinSep "\n" (hv.map cv2cbuf) ++ "\")")
    ++ (if d.co_flags_hide then ", hide" else "")
    ++ (if (!d.co_flags_hide) && d.co_flags_hide_database then ", hide-database" else "")
    ++ (if d.co_flags_hide && d.co_flags_hide_database then ", hide-database-auto-completion" else "")
    ++ concatAll (d.co_callbacks.map callbackStr)

/-- The kind switch of `co2cbuf`, lines 157-172: literal token for a
command, `@token` for a reference, `cov2cbuf` for a variable, `;` for an
empty node.  A NULL token prints nothing (the `if (co->co_command)`
guards). -/
def coKindStr (d : CoData) (brief : Bool) : String :=
  match d.co_type with
  | .CO_COMMAND => (match d.co_command with | some s => s | none => "")
  | .CO_REFERENCE => (match d.co_command with | some s => "@" ++ s | none => "")
  | .CO_VARIABLE => cov2cbuf d brief
  | .CO_EMPTY => ";"

/-- The node's own text in `co2cbuf`: kind rendering, then (full mode)
help/flags/callbacks, then the terminal `;` (lines 157-208). -/
def coNodeText (d : CoData) (brief : Bool) : String :=
  coKindStr d brief
    ++ (if brief then "" else coDetail d)
    ++ (if d.co_terminal then ";" else "")

mutual
/-- Function `co2cbuf`, lines 144-229: the node's own text, then the child
block: `@`? `{`-block for more than one child, a separating space for a
single non-empty child, a bare newline otherwise; children are rendered
by `pt2cbuf` at `marginal+3` and a multi-child block is closed by the
parent-margin indentation and `}`. -/
def co2cbuf (co : CgObj) (marginal : Nat) (brief : Bool) : String :=
  match co with
  | .mk d pt =>
    coNodeText d brief
      ++ (if pt_len_get pt > 1 then (if d.co_sets then "@" else "") ++ "\x7b\n"
          else if ptSingleNonEmpty pt then " " else "\n")
      ++ ptOpt2cbuf pt (marginal + 3) brief
      ++ (if pt_len_get pt > 1 then spaces marginal ++ "\x7d\n" else "")

/-- Function `pt2cbuf`, lines 237-259, on the possibly-NULL tree pointer: the
loop over the sibling slots, with the tree's total length (checked
against 1 for the per-line indentation) unchanged throughout the loop. -/
def ptOpt2cbuf (p : PtOpt) (m : Nat) (brief : Bool) : String :=
  match p with
  | .null => ""
  | .pt (.mk _ vec) => ptVec2cbuf vec (ptVecLen vec) m brief

/-- The loop body of `pt2cbuf`: NULL and `CO_EMPTY` slots are skipped
(`continue`); otherwise, when the whole tree has more than one entry the
slot is preceded by `marginal` spaces, and the node is rendered at that
same marginal. -/
def ptVec2cbuf (v : PtVec) (n : Nat) (m : Nat) (brief : Bool) : String :=
  match v with
  | .nil => ""
  | .cons .null tl => ptVec2cbuf tl n m brief
  | .cons (.obj c) tl =>
    (if coType c = .CO_EMPTY then ""
     else (if n > 1 then spaces m else "") ++ co2cbuf c m brief)
      ++ ptVec2cbuf tl n m brief
end

/-- Function `co_print`, lines 306-326: the text written to the output file for a
single node (the cbuf built by `co2cbuf` at marginal 0). -/
def co_print (co : CgObj) (brief : Bool) : String := co2cbuf co 0 brief

/-- Function `pt_print`, lines 276-296: the text written to the output file for a
parse tree (the cbuf built by `pt2cbuf` at marginal 0). -/
def pt_print (p : PtOpt) (brief : Bool) : String := ptOpt2cbuf p 0 brief

/-! ## Structural dump (`co_dump`/`pt_dump`, lines 328-399) -/

/-- An output stream: either the always-available diagnostic stream
`stderr` or a caller-supplied stream value. -/
inductive Handle (α : Type) : Type where
  | stderr : Handle α
  | arg (a : α) : Handle α

/-- Placeholder for `%p` of a node or tree pointer.  Pointer identities are not part of
the shallow embedding; the rendered address is abstracted to a fixed
placeholder (it never depends on the output-stream argument). -/
def ptrStr : String := "0x?"

mutual
/-- Function `co_dump1`, lines 354-381, as the sequence of (stream, text) writes
it performs: every `fprintf` in the body targets `stderr`, and the
recursion into the child tree passes `stderr` as the stream argument. -/
def co_dump1 {α : Type} (f : Handle α) (co : CgObj) (indent : Nat) :
    List (Handle α × String) :=
  match co with
  | .mk d pt =>
    (match d.co_type with
     | .CO_COMMAND =>
       [(Handle.stderr, spaces (indent * 3) ++ " " ++ ptrStr ++ " co " ++ pcts d.co_command)]
         ++ (if d.co_sets then [(Handle.stderr, " SETS")] else [])
         ++ [(Handle.stderr, "\n")]
     | .CO_REFERENCE =>
       [(Handle.stderr, spaces (indent * 3) ++ " " ++ ptrStr ++ " co @" ++ pcts d.co_command ++ "\n")]
     | .CO_VARIABLE =>
       [(Handle.stderr, spaces (indent * 3) ++ " " ++ ptrStr ++ " co <" ++ pcts d.co_command ++ ">\n")]
     | .CO_EMPTY =>
       [(Handle.stderr, spaces (indent * 3) ++ " " ++ ptrStr ++ " empty;\n")])
      ++ (match pt with
          | .null => []
          | .pt t => pt_dump1 Handle.stderr t indent)

/-- Function `pt_dump1`, lines 330-352: the tree header line (on `stderr`), then
each slot; a NULL slot prints an explicit `NULL` line, a node recurses
with the stream argument `f` and `indent+1`. -/
def pt_dump1 {α : Type} (f : Handle α) (t : ParseTree) (indent : Nat) :
    List (Handle α × String) :=
  match t with
  | .mk name vec =>
    [(Handle.stderr, spaces (indent * 3) ++ " " ++ ptrStr ++ " pt "
        ++ (match name with | some s => s | none => "") ++ " ["
        ++ toString (ptVecLen vec) ++ "]"),
      (Handle.stderr, "\n")]
      ++ ptVecDump f vec indent

/-- The slot loop of `pt_dump1`, lines 345-350. -/
def ptVecDump {α : Type} (f : Handle α) (v : PtVec) (indent : Nat) :
    List (Handle α × String) :=
  match v with
  | .nil => []
  | .cons .null tl =>
    [(Handle.stderr, spaces ((indent + 1) * 3) ++ " NULL\n")] ++ ptVecDump f tl indent
  | .cons (.obj co) tl => co_dump1 f co (indent + 1) ++ ptVecDump f tl indent
end

/-- Function `co_dump`, lines 385-390. -/
def co_dump {α : Type} (f : Handle α) (co : CgObj) : List (Handle α × String) :=
  co_dump1 f co 0

/-- Function `pt_dump`, lines 394-399. -/
def pt_dump {α : Type} (f : Handle α) (t : ParseTree) : List (Handle α × String) :=
  pt_dump1 f t 0

/-- A write goes to the diagnostic stream. -/
def isDiagWrite {α : Type} : Handle α × String → Bool
  | (.stderr, _) => true
  | (.arg _, _) => false

/-- Function `co_dump1` never reads its stream argument (every write and the
recursive call use `stderr`). -/
theorem co_dump1_indep {α : Type} (f₁ f₂ : Handle α) (co : CgObj) (i : Nat) :
    co_dump1 f₁ co i = co_dump1 f₂ co i := by
  cases co with
  | mk d pt => rfl

/-- The slot loop's writes do not depend on the stream argument. -/
theorem ptVecDump_indep {α : Type} (f₁ f₂ : Handle α) (v : PtVec) (i : Nat) :
    ptVecDump f₁ v i = ptVecDump f₂ v i := by
  match v with
  | .nil => rfl
  | .cons .null tl =>
    simp only [ptVecDump]
    rw [ptVecDump_indep f₁ f₂ tl i]
  | .cons (.obj co) tl =>
    simp only [ptVecDump]
    rw [ptVecDump_indep f₁ f₂ tl i, co_dump1_indep f₁ f₂ co (i + 1)]

/-- The writes of `pt_dump1` do not depend on the stream argument. -/
theorem pt_dump1_indep {α : Type} (f₁ f₂ : Handle α) (t : ParseTree) (i : Nat) :
    pt_dump1 f₁ t i = pt_dump1 f₂ t i := by
  cases t with
  | mk name vec =>
    simp only [pt_dump1]
    rw [ptVecDump_indep f₁ f₂ vec i]

mutual
/-- Every write of `co_dump1` goes to the diagnostic stream. -/
theorem co_dump1_all_diag {α : Type} (f : Handle α) (co : CgObj) (i : Nat) :
    (co_dump1 f co i).all isDiagWrite = true := by
  match co with
  | .mk d pt =>
    match pt with
    | .null =>
      rcases d with ⟨ty, cmd, ch, sh, vt, rg, ef, ev, rx, tf, hv, hh, hd, cb, tm, st⟩
      cases ty <;> cases st <;> rfl
    | .pt t =>
      have h := pt_dump1_all_diag (Handle.stderr : Handle α) t i
      rcases d with ⟨ty, cmd, ch, sh, vt, rg, ef, ev, rx, tf, hv, hh, hd, cb, tm, st⟩
      cases ty <;> cases st <;>
        simp only [co_dump1, List.all_append, h, List.all_cons, List.all_nil, isDiagWrite,
          Bool.and_true, Bool.true_and, List.append_nil] <;> rfl

/-- Every write of `pt_dump1` goes to the diagnostic stream. -/
theorem pt_dump1_all_diag {α : Type} (f : Handle α) (t : ParseTree) (i : Nat) :
    (pt_dump1 f t i).all isDiagWrite = true := by
  match t with
  | .mk name vec =>
    simp only [pt_dump1, List.all_append]
    rw [ptVecDump_all_diag f vec i]
    rfl

/-- Every write of the slot loop goes to the diagnostic stream. -/
theorem ptVecDump_all_diag {α : Type} (f : Handle α) (v : PtVec) (i : Nat) :
    (ptVecDump f v i).all isDiagWrite = true := by
  match v with
  | .nil => rfl
  | .cons .null tl =>
    simp only [ptVecDump, List.all_append]
    rw [ptVecDump_all_diag f tl i]
    rfl
  | .cons (.obj co) tl =>
    simp only [ptVecDump, List.all_append]
    rw [ptVecDump_all_diag f tl i, co_dump1_all_diag f co (i + 1)]
    rfl
end

/-- C8: the structural dump is stream-blind: for every node and every
tree, the write sequence is the same for any two values of the
caller-supplied output stream, and every single write goes to the
diagnostic stream — none to the supplied stream. -/
theorem c8_dump_diag_only {α : Type} (f₁ f₂ f : Handle α) (co : CgObj) (t : ParseTree) :
    co_dump f₁ co = co_dump f₂ co
    ∧ pt_dump f₁ t = pt_dump f₂ t
    ∧ (co_dump f co).all isDiagWrite = true
    ∧ (pt_dump f t).all isDiagWrite = true :=
  ⟨co_dump1_indep f₁ f₂ co 0, pt_dump1_indep f₁ f₂ t 0,
    co_dump1_all_diag f co 0, pt_dump1_all_diag f t 0⟩

/-! ## Concrete nodes used by the rendering claims -/

/-- A `cg_obj` data record with every optional field absent and every
flag clear (the state produced by the external compiler before any
attribute is attached). -/
def coData0 : CoData :=
  ⟨CoType.CO_COMMAND, none, none, none, CvType.CGV_ERR, [], none, none,
    none, none, none, false, false, [], false, false⟩

/-- A terminal literal Command node `show` with no children. -/
def c4ShowTerm : CgObj :=
  CgObj.mk { coData0 with co_command := some "show", co_terminal := true } PtOpt.null

/-- A non-terminal literal Command node `show` with no children. -/
def c4ShowNonTerm : CgObj :=
  CgObj.mk { coData0 with co_command := some "show" } PtOpt.null

/-- C4 counterexample: brief rendering of the childless terminal Command
node `show` is `"show;\n"` — `co2cbuf` always emits a trailing newline
for a childless node (line 219), so the output is not exactly `"show;"`
as claimed. -/
theorem c4_counterexample :
    co_print c4ShowTerm true = "show;\n" ∧ co_print c4ShowTerm true ≠ "show;" := by
  constructor
  · rfl
  · decide

/-- C4 (amended): brief rendering of a single literal Command node
`show` with no children, help text or callbacks yields exactly
`"show;"` followed by a newline when terminal, and `"show"` followed by
a newline when not terminal. -/
theorem c4_brief_command_render :
    co_print c4ShowTerm true = "show;\n" ∧ co_print c4ShowNonTerm true = "show\n" := by
  constructor <;> rfl

/-- A Command node carrying a choice string (kind not Variable). -/
def c1ChoiceCmd : CgObj :=
  CgObj.mk { coData0 with co_command := some "x", co_choice := some "a|b" } PtOpt.null

/-- C1 counterexample: the choice shortcut lives in `cov2cbuf`, which is
reached only through the `CO_VARIABLE` arm of `co2cbuf`'s kind switch; a
Command node with choice `"a|b"` renders its literal token `x`, not the
parenthesized choice text the claim requires for every kind. -/
theorem c1_counterexample :
    co_print c1ChoiceCmd true = "x\n" ∧ co_print c1ChoiceCmd true ≠ "(a|b)\n" := by
  constructor
  · rfl
  · decide

/-- C1 (amended): for a node of Variable kind carrying a choice string,
rendering (either mode) emits the choice text verbatim — parenthesized
iff it contains `|` — and none of the normal `<...>` variable
rendering. -/
theorem c1_choice_variable_only (d : CoData) (b : Bool) (s : String)
    (h : d.co_choice = some s) :
    cov2cbuf d b = (if hasPipe s then "(" ++ s ++ ")" else s)
    ∧ (d.co_type = CoType.CO_VARIABLE →
        coKindStr d b = (if hasPipe s then "(" ++ s ++ ")" else s)) := by
  have h1 : cov2cbuf d b = if hasPipe s then "(" ++ s ++ ")" else s := by
    simp only [cov2cbuf, h]
  refine ⟨h1, fun ht => ?_⟩
  simp only [coKindStr, ht, h1]

/-- A Variable node carrying the choice string `a|b`. -/
def c1VarChoice : CoData :=
  { coData0 with co_type := CoType.CO_VARIABLE, co_choice := some "a|b" }

/-- C1 witness: the amended claim at the concrete Variable node. -/
theorem c1_choice_variable_only_witness :
    cov2cbuf c1VarChoice true = (if hasPipe "a|b" then "(" ++ "a|b" ++ ")" else "a|b")
    ∧ (c1VarChoice.co_type = CoType.CO_VARIABLE →
        coKindStr c1VarChoice true = (if hasPipe "a|b" then "(" ++ "a|b" ++ ")" else "a|b")) :=
  c1_choice_variable_only c1VarChoice true "a|b" (by rfl)

/-- The range-clause format as the spec words it: `range[`/`length[` by
integer-ness of the variable's type, low bound and `:` omitted exactly
when the stored low bound has the `CGV_EMPTY` sentinel type. -/
def specRangeClause (vt : CvType) (low high : CgVar) : String :=
  (if cv_isint vt then " range[" else " length[")
    ++ (if cv_type_get low = CvType.CGV_EMPTY then "" else cv2cbuf low ++ ":")
    ++ cv2cbuf high ++ "]"

/-- The source's range loop emits exactly one spec range clause per
constraint pair, concatenated in order. -/
theorem rangesStr_eq_concat (vt : CvType) (l : List (CgVar × CgVar)) :
    rangesStr vt l = concatAll (l.map (fun p => specRangeClause vt p.1 p.2)) := by
  induction l with
  | nil => rfl
  | cons p tl ih =>
    simp only [rangesStr, List.map, concatAll, ih]
    congr 1
    by_cases hp : cv_type_get p.1 = CvType.CGV_EMPTY <;>
      simp [rangePairStr, specRangeClause, hp]

/-- Lower bound `1` of the example constraint. -/
def cvLow1 : CgVar := ⟨none, CvType.CGV_INT32, none, "1", false⟩

/-- Upper bound `10` of the example constraint. -/
def cvUpp10 : CgVar := ⟨none, CvType.CGV_INT32, none, "10", false⟩

/-- A Variable node `x` of type int32 with the single constraint `[1:10]`. -/
def c3VarX : CoData :=
  { coData0 with
      co_type := CoType.CO_VARIABLE
      co_command := some "x"
      co_vtype := CvType.CGV_INT32
      co_ranges := [(cvLow1, cvUpp10)] }

/-- C3: full-mode variable rendering without a choice string is
`<name:typename` followed by one spec range clause per constraint pair
and the detail tail; the example node renders as
`<x:int32 range[1:10]>`. -/
theorem c3_variable_full_render (d : CoData) (h : d.co_choice = none) :
    cov2cbuf d false =
      "<" ++ pcts d.co_command ++ ":" ++ cv_type2str d.co_vtype
        ++ concatAll (d.co_ranges.map (fun p => specRangeClause d.co_vtype p.1 p.2))
        ++ covTailStr d
    ∧ cov2cbuf c3VarX false = "<x:int32 range[1:10]>" := by
  constructor
  · simp only [cov2cbuf, h, rangesStr_eq_concat, Bool.false_eq_true, if_false]
  · rfl

/-- C3 witness: the general equation instantiated at the example node. -/
theorem c3_variable_full_render_witness :
    cov2cbuf c3VarX false =
      "<" ++ pcts c3VarX.co_command ++ ":" ++ cv_type2str c3VarX.co_vtype
        ++ concatAll (c3VarX.co_ranges.map (fun p => specRangeClause c3VarX.co_vtype p.1 p.2))
        ++ covTailStr c3VarX
    ∧ cov2cbuf c3VarX false = "<x:int32 range[1:10]>" :=
  c3_variable_full_render c3VarX (by rfl)

/-- C10: the sibling loop of `pt2cbuf` skips a `CO_EMPTY` sibling
entirely (it contributes no output at all, in particular no `;`), the
kind switch of `co2cbuf` renders a `CO_EMPTY` node as `;`, and a bare
Empty node printed alone through `co_print` yields `";\n"`. -/
theorem c10_empty_sibling_skip :
    (∀ (d : CoData) (cpt : PtOpt) (tl : PtVec) (n m : Nat) (b : Bool),
        d.co_type = CoType.CO_EMPTY →
        ptVec2cbuf (PtVec.cons (CoSlot.obj (CgObj.mk d cpt)) tl) n m b
          = ptVec2cbuf tl n m b)
    ∧ (∀ (d : CoData) (b : Bool), d.co_type = CoType.CO_EMPTY → coKindStr d b = ";")
    ∧ co_print (CgObj.mk { coData0 with co_type := CoType.CO_EMPTY } PtOpt.null) false
        = ";\n" := by
  refine ⟨?_, ?_, ?_⟩
  · intro d cpt tl n m b h
    simp [ptVec2cbuf, coType, h, String.empty_append]
  · intro d b h
    simp [coKindStr, h]
  · rfl

/-- C10 witness: a concrete two-sibling vector whose first sibling is an
Empty node renders identically to the vector without it, and the kind
switch at a concrete Empty node yields `;`. -/
theorem c10_empty_sibling_skip_witness :
    ptVec2cbuf
        (PtVec.cons (CoSlot.obj (CgObj.mk { coData0 with co_type := CoType.CO_EMPTY } PtOpt.null))
          (PtVec.cons (CoSlot.obj c4ShowTerm) PtVec.nil)) 2 3 true
      = ptVec2cbuf (PtVec.cons (CoSlot.obj c4ShowTerm) PtVec.nil) 2 3 true
    ∧ coKindStr { coData0 with co_type := CoType.CO_EMPTY } false = ";" :=
  ⟨c10_empty_sibling_skip.1 { coData0 with co_type := CoType.CO_EMPTY } PtOpt.null
      (PtVec.cons (CoSlot.obj c4ShowTerm) PtVec.nil) 2 3 true (by rfl),
    c10_empty_sibling_skip.2.1 { coData0 with co_type := CoType.CO_EMPTY } false (by rfl)⟩

/-- A sibling vector with zero slots is `nil`. -/
theorem ptVecLen_eq_zero (v : PtVec) (h : ptVecLen v = 0) : v = PtVec.nil := by
  cases v with
  | nil => rfl
  | cons hd tl => simp [ptVecLen] at h

/-- What one sibling slot contributes inside a multi-child block: NULL
and Empty slots nothing, any other node its own line — `m` indentation
spaces followed by its rendering at marginal `m`. -/
def childLine (m : Nat) (b : Bool) : CoSlot → Option String
  | .null => none
  | .obj c => if coType c = CoType.CO_EMPTY then none
      else some (spaces m ++ co2cbuf c m b)

/-- The sibling slots of a node's (possibly NULL) child tree. -/
def ptSlots : PtOpt → List CoSlot
  | .null => []
  | .pt (.mk _ vec) => ptVecList vec

/-- The multi-child block as the claim words it: optional `@`, `{`,
newline, one line per (non-NULL, non-Empty) child indented three beyond
the parent margin, then the parent-margin indentation and `}`. -/
def childBlock (d : CoData) (p : PtOpt) (m : Nat) (b : Bool) : String :=
  (if d.co_sets then "@" else "") ++ "\x7b\n"
    ++ concatAll ((ptSlots p).filterMap (childLine (m + 3) b))
    ++ spaces m ++ "\x7d\n"

/-- When the tree has more than one entry, the sibling loop emits
exactly one indented line per rendered child. -/
theorem ptVec2cbuf_join (v : PtVec) (n m : Nat) (b : Bool) (h : 1 < n) :
    ptVec2cbuf v n m b = concatAll ((ptVecList v).filterMap (childLine m b)) := by
  match v with
  | .nil => rfl
  | .cons .null tl =>
    have ih := ptVec2cbuf_join tl n m b h
    simp only [ptVec2cbuf, ptVecList, List.filterMap_cons, childLine, ih]
  | .cons (.obj c) tl =>
    have ih := ptVec2cbuf_join tl n m b h
    by_cases hc : coType c = CoType.CO_EMPTY
    · simp [ptVec2cbuf, ptVecList, List.filterMap_cons, childLine, hc, ih,
        String.empty_append]
    · simp [ptVec2cbuf, ptVecList, List.filterMap_cons, childLine, hc, ih, h,
        concatAll]

/-- A child tree with exactly one slot holding node `c` is the one-slot
tree for `c`. -/
theorem single_slot_structure (p : PtOpt) (c : CgObj) (h1 : pt_len_get p = 1)
    (h2 : firstSlot p = CoSlot.obj c) :
    ∃ name, p = PtOpt.pt (ParseTree.mk name (PtVec.cons (CoSlot.obj c) PtVec.nil)) := by
  match p with
  | .null => simp [pt_len_get] at h1
  | .pt (.mk name vec) =>
    match vec with
    | .nil => simp [pt_len_get, ptVecLen] at h1
    | .cons hd tl =>
      have htl : ptVecLen tl = 0 := by
        simp [pt_len_get, ptVecLen] at h1
        omega
      have htl2 : tl = PtVec.nil := ptVecLen_eq_zero tl htl
      subst htl2
      have hhd : hd = CoSlot.obj c := by
        simpa [firstSlot, ptVecGet] using h2
      subst hhd
      exact ⟨name, rfl⟩

/-- C2 (amended): after the node's own text, a node with more than one
child entry emits `@` exactly when its sets flag is on, then a `{`
block with each rendered child on its own line indented three beyond
the parent margin and a parent-margin-indented closing `}`; a node with
exactly one non-Empty child emits a single space and that child inline;
a node with exactly one Empty child or no children emits a bare newline
— in brief mode as well as full mode — and the recursion stops. -/
theorem c2_child_rendering (d : CoData) (p : PtOpt) (m : Nat) (b : Bool) :
    (1 < pt_len_get p →
      co2cbuf (CgObj.mk d p) m b = coNodeText d b ++ childBlock d p m b)
    ∧ (∀ c, pt_len_get p = 1 → firstSlot p = CoSlot.obj c →
        coType c ≠ CoType.CO_EMPTY →
        co2cbuf (CgObj.mk d p) m b
          = coNodeText d b ++ (" " ++ co2cbuf c (m + 3) b))
    ∧ ((pt_len_get p = 0
          ∨ (pt_len_get p = 1 ∧ ∃ c, firstSlot p = CoSlot.obj c
              ∧ coType c = CoType.CO_EMPTY)) →
        co2cbuf (CgObj.mk d p) m b = coNodeText d b ++ "\n") := by
  refine ⟨?_, ?_, ?_⟩
  · intro h
    match p with
    | .null => simp [pt_len_get] at h
    | .pt (.mk name vec) =>
      have hlen : 1 < ptVecLen vec := by simpa [pt_len_get] using h
      have hj := ptVec2cbuf_join vec (ptVecLen vec) (m + 3) b hlen
      simp [co2cbuf, ptOpt2cbuf, pt_len_get, hlen, hj, childBlock, ptSlots,
        String.append_assoc]
  · intro c h1 h2 h3
    obtain ⟨name, rfl⟩ := single_slot_structure p c h1 h2
    simp [co2cbuf, ptOpt2cbuf, ptVec2cbuf, pt_len_get, ptVecLen,
      ptSingleNonEmpty, firstSlot, ptVecGet, h3, String.empty_append,
      String.append_empty, String.append_assoc]
  · intro h
    rcases h with h0 | ⟨h1, c, h2, h3⟩
    · match p with
      | .null =>
        simp [co2cbuf, ptOpt2cbuf, pt_len_get, ptSingleNonEmpty, firstSlot,
          String.append_empty]
      | .pt (.mk name vec) =>
        have hnil : vec = PtVec.nil := ptVecLen_eq_zero vec (by simpa [pt_len_get] using h0)
        subst hnil
        simp [co2cbuf, ptOpt2cbuf, ptVec2cbuf, pt_len_get, ptVecLen,
          ptSingleNonEmpty, firstSlot, ptVecGet, String.append_empty]
    · obtain ⟨name, rfl⟩ := single_slot_structure p c h1 h2
      simp [co2cbuf, ptOpt2cbuf, ptVec2cbuf, pt_len_get, ptVecLen,
        ptSingleNonEmpty, firstSlot, ptVecGet, h3, String.append_empty]

/-- A childless terminal Command node used to exhibit the brief-mode
newline. -/
def c2Leaf : CgObj :=
  CgObj.mk { coData0 with co_command := some "cmd", co_terminal := true } PtOpt.null

/-- C2 counterexample: for a childless node in brief mode the claim's
"newline being emitted in full mode" predicts no newline, but line 219
of `co2cbuf` emits the newline unconditionally: the brief rendering is
`"cmd;\n"`, not `"cmd;"`. -/
theorem c2_counterexample :
    co_print c2Leaf true = "cmd;\n" ∧ co_print c2Leaf true ≠ "cmd;" := by
  constructor
  · rfl
  · decide

/-- First child of the witness parent. -/
def c2ChildA : CgObj :=
  CgObj.mk { coData0 with co_command := some "a", co_terminal := true } PtOpt.null

/-- Second child of the witness parent. -/
def c2ChildB : CgObj :=
  CgObj.mk { coData0 with co_command := some "b", co_terminal := true } PtOpt.null

/-- A two-child tree. -/
def c2TwoKids : PtOpt :=
  PtOpt.pt (ParseTree.mk none
    (PtVec.cons (CoSlot.obj c2ChildA) (PtVec.cons (CoSlot.obj c2ChildB) PtVec.nil)))

/-- A one-child tree. -/
def c2OneKid : PtOpt :=
  PtOpt.pt (ParseTree.mk none (PtVec.cons (CoSlot.obj c2ChildB) PtVec.nil))

/-- The witness parent node data. -/
def c2Par : CoData := { coData0 with co_command := some "p" }

/-- C2 witness: the three child-rendering cases at concrete trees. -/
theorem c2_child_rendering_witness :
    co2cbuf (CgObj.mk c2Par c2TwoKids) 0 false
      = coNodeText c2Par false ++ childBlock c2Par c2TwoKids 0 false
    ∧ co2cbuf (CgObj.mk c2Par c2OneKid) 0 false
      = coNodeText c2Par false ++ (" " ++ co2cbuf c2ChildB 3 false)
    ∧ co2cbuf (CgObj.mk c2Par PtOpt.null) 0 false = coNodeText c2Par false ++ "\n" :=
  ⟨(c2_child_rendering c2Par c2TwoKids 0 false).1 (by decide),
    (c2_child_rendering c2Par c2OneKid 0 false).2.1 c2ChildB (by rfl) (by rfl)
      (by decide),
    (c2_child_rendering c2Par PtOpt.null 0 false).2.2 (Or.inl (by rfl))⟩
